import Mathlib

/-!
Verification of `sktime/utils/estimators/convert.py`: the
`InceptionTimeClassifier` wrapper class.

The Python class is glue over Keras: it stores hyperparameters, builds a
compiled model through a network collaborator, and runs the framework's
training loop.  The embedding below models the instance state as a record,
the `_fit` method as a state transformer that additionally returns the
argument record handed to the external training loop, and Python object
identity of callback objects through an explicit `oid` field so that the
in-place `list.append` aliasing of `_check_callbacks` and the `deepcopy`
at the `model_.fit` call site are both observable.
-/

/-- The payload of a Keras callback object.  `reduceLROnPlateau` mirrors
`keras.callbacks.ReduceLROnPlateau` with its constructor arguments
(`monitor`, `factor`, `patience`, `min_lr`); any other callback class the
user may pass is abstracted as `other` with an arbitrary tag. -/
inductive CallbackKind where
  | reduceLROnPlateau (monitor : String) (factor : Rat) (patience : Nat) (min_lr : Rat)
  | other (tag : Nat)
deriving DecidableEq, Repr

/-- A Python callback object: an object identity `oid` plus its payload.
Two callbacks with equal payloads but different `oid` are distinct objects,
as after `deepcopy`. -/
structure Callback where
  oid : Nat
  kind : CallbackKind
deriving DecidableEq, Repr

/-- `isinstance(cb, keras.callbacks.ReduceLROnPlateau)` on the payload. -/
def isPlateauKind : CallbackKind → Bool
  | .reduceLROnPlateau _ _ _ _ => true
  | .other _ => false

/-- `isinstance(cb, keras.callbacks.ReduceLROnPlateau)` on a callback object. -/
def isPlateau (c : Callback) : Bool := isPlateauKind c.kind

/-- Number of `ReduceLROnPlateau` callbacks in a list. -/
def plateauCount (l : List Callback) : Nat := l.countP isPlateau

/-- The payload of the default callback appended by `_check_callbacks`:
`ReduceLROnPlateau(monitor="loss", factor=0.5, patience=50, min_lr=1e-4)`
(convert.py lines 131-135). -/
def defaultPlateauKind : CallbackKind :=
  .reduceLROnPlateau "loss" ((1 : Rat) / 2) 50 ((1 : Rat) / 10000)

/-- A fresh object identity: strictly larger than every `oid` in `l`. -/
def freshOid (l : List Callback) : Nat :=
  l.foldr (fun c m => max (c.oid + 1) m) 0

/-- Copies of the callbacks in a list, numbered upward from `fresh`:
same payloads, new object identities. -/
def deepcopyFrom (fresh : Nat) : List Callback → List Callback
  | [] => []
  | c :: cs => { c with oid := fresh } :: deepcopyFrom (fresh + 1) cs

/-- `copy.deepcopy` on a callback list: each element is replaced by a copy
with an equal payload and an object identity fresh for the list. -/
def deepcopyCallbacks (l : List Callback) : List Callback :=
  deepcopyFrom (freshOid l) l

/-- Embeds `_check_callbacks` (convert.py lines 126-136), as the value of
the local `callbacks` that the method returns: a `None` argument is
replaced by a fresh empty list; then, if no element is a
`ReduceLROnPlateau`, a default one (a fresh object) is appended. -/
def _check_callbacks (callbacks : Option (List Callback)) : List Callback :=
  let cbs := callbacks.getD []
  if cbs.any isPlateau then cbs
  else cbs ++ [{ oid := freshOid cbs, kind := defaultPlateauKind }]

/-- The effect of `_check_callbacks` on the object its argument references:
`callbacks.append` mutates the argument list in place, so when the caller
passes `self.callbacks` and it is a list, the attribute afterwards
references the (possibly extended) list returned; `None` is left alone
because the method rebinds only its local variable. -/
def check_callbacks_effect (callbacks : Option (List Callback)) :
    Option (List Callback) :=
  callbacks.map (fun l => _check_callbacks (some l))

/-- The hyperparameters the constructor copies into the
`InceptionTimeNetwork` collaborator (convert.py lines 83-91), in the order
they are passed. -/
structure NetworkParams where
  n_filters : Nat
  use_residual : Bool
  use_bottleneck : Bool
  bottleneck_size : Nat
  depth : Nat
  kernel_size : Nat
  random_state : Option Int
deriving DecidableEq, Repr

/-- A symbolic Keras tensor.  `inputLayer` is the input tensor the network
collaborator creates for a given shape, `networkOutput` its output tensor,
and `dense` the application of a `keras.layers.Dense(units, activation)`
layer to a previous tensor. -/
inductive Tensor where
  | inputLayer (shape : List Nat) : Tensor
  | networkOutput (params : NetworkParams) (shape : List Nat) : Tensor
  | dense (units : Nat) (activation : String) (prev : Tensor) : Tensor
deriving DecidableEq, Repr

/-- Modelled from the spec: the network collaborator
(`InceptionTimeNetwork.build_network`, whose source is not under src/ and
which the spec leaves out of scope) returns an input/output tensor pair
for a given input shape; its internal topology is opaque. -/
def build_network (params : NetworkParams) (input_shape : List Nat) :
    Tensor × Tensor :=
  (.inputLayer input_shape, .networkOutput params input_shape)

/-- Number of `Dense` layers applied on top of the underlying tensor. -/
def denseDepth : Tensor → Nat
  | .dense _ _ prev => denseDepth prev + 1
  | _ => 0

/-- A compiled Keras model: its input and output tensors and the arguments
of `model.compile` (loss, optimizer class name, metrics). -/
structure Model where
  inputs : Tensor
  outputs : Tensor
  loss : String
  optimizer : String
  metrics : List String
deriving DecidableEq, Repr

/-- What the framework's `History` object retains about a training run:
the run parameters, not the data. -/
structure History where
  epochs : Nat
  batch_size : Nat
  verbose : Bool
deriving DecidableEq, Repr

/-- A three-dimensional numpy array, as a shape triple and an element
function: `X[i][j][k] = data i j k`. -/
structure NDArray3 where
  d0 : Nat
  d1 : Nat
  d2 : Nat
  data : Nat → Nat → Nat → Int

/-- `X.shape` of a three-dimensional array. -/
def NDArray3.shape (a : NDArray3) : List Nat := [a.d0, a.d1, a.d2]

/-- `X.transpose(0, 2, 1)`: axes 1 and 2 are exchanged, axis 0 kept. -/
def NDArray3.transpose021 (a : NDArray3) : NDArray3 :=
  { d0 := a.d0, d1 := a.d2, d2 := a.d1,
    data := fun i j k => a.data i k j }

/-- The record of arguments one call to the framework's training loop
(`self.model_.fit(...)`, convert.py lines 116-123) receives. -/
structure KerasFitCall where
  x : NDArray3
  y_onehot : List (List Nat)
  batch_size : Nat
  epochs : Nat
  verbose : Bool
  callbacks : List Callback

/-- Modelled from the spec: the framework training loop is external; it is
observed through the arguments handed to it and returns a `History`
retaining only the run parameters. -/
def keras_fit (call : KerasFitCall) : History :=
  { epochs := call.epochs, batch_size := call.batch_size,
    verbose := call.verbose }

/-- Modelled from the spec: `_convert_y_to_keras` (defined in the
`BaseDeepClassifier` base class, whose source is not under src/) computes
"a derived one-hot representation of training labels": label `c` becomes
the indicator row of length `n_classes` with a 1 in position `c`. -/
def convert_y_to_keras (n_classes : Nat) (y : List Nat) : List (List Nat) :=
  y.map (fun c => (List.range n_classes).map (fun j => if j = c then 1 else 0))

/-- The instance state of an `InceptionTimeClassifier`: the attributes
`__init__` assigns (convert.py lines 68-91) plus the attributes the fit
lifecycle assigns (`model_`, `history`, `input_shape`, absent before the
first fit, hence `Option`) and `n_classes_`, which the base class sets
before delegating to `_fit` (0 before any fit). -/
structure ClassifierState where
  n_epochs : Nat
  batch_size : Nat
  kernel_size : Nat
  n_filters : Nat
  use_residual : Bool
  use_bottleneck : Bool
  bottleneck_size : Nat
  depth : Nat
  callbacks : Option (List Callback)
  random_state : Option Int
  verbose : Bool
  loss : String
  metrics : List String
  network : NetworkParams
  n_classes_ : Nat
  model_ : Option Model
  history : Option History
  input_shape : Option (List Nat)
deriving DecidableEq, Repr

/-- Python `metrics or ["accuracy"]` (convert.py line 80): the default is
used when the value is falsy, that is `None` or the empty list. -/
def pyOrMetrics (metrics : Option (List String)) (d : List String) :
    List String :=
  match metrics with
  | none => d
  | some [] => d
  | some l => l

/-- Modelled from the spec: `_check_dl_dependencies(severity="error")`
(from `sktime.utils.dependencies`, whose source is not under src/) raises
at construction time exactly when the deep-learning framework is
unavailable. -/
def _check_dl_dependencies (dl_available : Bool) : Except String Unit :=
  if dl_available then .ok ()
  else .error "tensorflow is required but not available"

/-- The attribute assignments of `__init__` (convert.py lines 68-91): each
constructor argument is stored unchanged except `metrics`, which gets the
`or`-default, and the network hyperparameters are additionally copied into
the `InceptionTimeNetwork` collaborator. -/
def init_fields (n_epochs batch_size kernel_size n_filters : Nat)
    (use_residual use_bottleneck : Bool) (bottleneck_size depth : Nat)
    (callbacks : Option (List Callback)) (random_state : Option Int)
    (verbose : Bool) (loss : String) (metrics : Option (List String)) :
    ClassifierState :=
  { n_epochs := n_epochs, batch_size := batch_size,
    kernel_size := kernel_size, n_filters := n_filters,
    use_residual := use_residual, use_bottleneck := use_bottleneck,
    bottleneck_size := bottleneck_size, depth := depth,
    callbacks := callbacks, random_state := random_state,
    verbose := verbose, loss := loss,
    metrics := pyOrMetrics metrics ["accuracy"],
    network :=
      { n_filters := n_filters, use_residual := use_residual,
        use_bottleneck := use_bottleneck,
        bottleneck_size := bottleneck_size, depth := depth,
        kernel_size := kernel_size, random_state := random_state },
    n_classes_ := 0, model_ := none, history := none, input_shape := none }

/-- `__init__` (convert.py lines 51-91): first the dependency check, which
raises when the framework is unavailable, then the attribute assignments. -/
def init (n_epochs batch_size kernel_size n_filters : Nat)
    (use_residual use_bottleneck : Bool) (bottleneck_size depth : Nat)
    (callbacks : Option (List Callback)) (random_state : Option Int)
    (verbose : Bool) (loss : String) (metrics : Option (List String))
    (dl_available : Bool) : Except String ClassifierState :=
  match _check_dl_dependencies dl_available with
  | .error e => .error e
  | .ok _ =>
      .ok (init_fields n_epochs batch_size kernel_size n_filters
        use_residual use_bottleneck bottleneck_size depth callbacks
        random_state verbose loss metrics)

/-- `build_model` (convert.py lines 93-103): asks the network collaborator
for an input/output tensor pair, applies one
`Dense(n_classes, activation="softmax")` layer to the output, and returns
the model compiled with the configured loss, a fresh `Adam` optimizer and
the configured metrics.  Total: no error path of its own. -/
def build_model (s : ClassifierState) (input_shape : List Nat)
    (n_classes : Nat) : Model :=
  let pair := build_network s.network input_shape
  let output_layer := Tensor.dense n_classes "softmax" pair.2
  { inputs := pair.1, outputs := output_layer, loss := s.loss,
    optimizer := "Adam", metrics := s.metrics }

/-- `_fit` (convert.py lines 105-124) as a state transformer.  It also
returns the `KerasFitCall` record of the arguments handed to the external
training loop, so that the run itself is observable.  Steps, in source
order: the one-hot labels are recomputed locally; `X` is transposed with
`transpose(0, 2, 1)`; `input_shape` is set to the transposed shape without
the sample axis; the model is built from that shape and `n_classes_`;
`_check_callbacks(self.callbacks)` produces the callback list (and, by
aliasing, its effect on the `callbacks` attribute); the training loop
receives a `deepcopy` of that list together with the configured batch size
and epoch count; its `History` is stored. -/
def _fit (s : ClassifierState) (X : NDArray3) (y : List Nat) :
    ClassifierState × KerasFitCall :=
  let y_onehot := convert_y_to_keras s.n_classes_ y
  let Xt := X.transpose021
  let input_shape := Xt.shape.drop 1
  let model := build_model s input_shape s.n_classes_
  let cbs := _check_callbacks s.callbacks
  let call : KerasFitCall :=
    { x := Xt, y_onehot := y_onehot, batch_size := s.batch_size,
      epochs := s.n_epochs, verbose := s.verbose,
      callbacks := deepcopyCallbacks cbs }
  ({ s with
      input_shape := some input_shape
      model_ := some model
      callbacks := check_callbacks_effect s.callbacks
      history := some (keras_fit call) },
    call)

/-- One test-parameter dictionary of `get_test_params`. -/
structure TestParams where
  n_epochs : Nat
  batch_size : Nat
deriving DecidableEq, Repr

/-- `get_test_params` (convert.py lines 138-143): returns the two literal
parameter dictionaries, for every `parameter_set` argument. -/
def get_test_params (parameter_set : String) : List TestParams :=
  let param1 : TestParams := { n_epochs := 10, batch_size := 4 }
  let param2 : TestParams := { n_epochs := 12, batch_size := 6 }
  [param1, param2]

/-! ### Concrete fixtures -/

/-- A concrete 2-sample, 3-channel, 5-timepoint training array. -/
def X0 : NDArray3 := { d0 := 2, d1 := 3, d2 := 5, data := fun _ _ _ => 0 }

/-- A classifier constructed with default arguments except for two
user-supplied `ReduceLROnPlateau` callbacks. -/
def stateTwoPlateaus : ClassifierState :=
  init_fields 1500 64 40 32 true true 32 6
    (some [⟨0, .reduceLROnPlateau "loss" 1 50 0⟩,
           ⟨1, .reduceLROnPlateau "val_loss" 1 25 0⟩])
    none false "categorical_crossentropy" none

/-- A classifier constructed with default arguments except for a
user-supplied empty callback list (`callbacks=[]`, which is not `None`). -/
def stateEmptyCallbacks : ClassifierState :=
  init_fields 1500 64 40 32 true true 32 6 (some []) none false
    "categorical_crossentropy" none

/-- A classifier constructed with default arguments except for one
user-supplied callback that is not a `ReduceLROnPlateau`. -/
def stateOtherCallback : ClassifierState :=
  init_fields 1500 64 40 32 true true 32 6 (some [⟨5, .other 1⟩]) none false
    "categorical_crossentropy" none

/-! ### Sanity checks of the embedding on concrete inputs -/

example : plateauCount (_check_callbacks none) = 1 := by decide
example :
    _check_callbacks (some [⟨7, .other 3⟩]) =
      [⟨7, .other 3⟩, ⟨8, defaultPlateauKind⟩] := rfl
example : check_callbacks_effect none = none := by decide
example : X0.transpose021.shape = [2, 5, 3] := by decide
example : (_fit stateOtherCallback X0 [0, 1]).1.input_shape = some [5, 3] := by
  decide
example :
    convert_y_to_keras 3 [2, 0] = [[0, 0, 1], [1, 0, 0]] := by decide

/-! ### Helper lemmas -/

/-- Every object identity in `l` is below `freshOid l`. -/
theorem oid_lt_freshOid {l : List Callback} {c : Callback} (h : c ∈ l) :
    c.oid < freshOid l := by
  induction l with
  | nil => cases h
  | cons a as ih =>
      have hmax : freshOid (a :: as) = max (a.oid + 1) (freshOid as) := rfl
      rw [hmax]
      rcases List.mem_cons.mp h with rfl | h2
      · exact Nat.lt_of_lt_of_le (Nat.lt_succ_self _) (Nat.le_max_left _ _)
      · exact Nat.lt_of_lt_of_le (ih h2) (Nat.le_max_right _ _)

/-- Every object identity in `deepcopyFrom n l` is at least `n`. -/
theorem deepcopyFrom_oid_ge {l : List Callback} {n : Nat} {c : Callback}
    (h : c ∈ deepcopyFrom n l) : n ≤ c.oid := by
  induction l generalizing n with
  | nil => cases h
  | cons a as ih =>
      rcases List.mem_cons.mp h with rfl | h2
      · exact Nat.le_refl _
      · exact Nat.le_of_succ_le (ih h2)

/-- Copying preserves the payloads, in order. -/
theorem deepcopyFrom_map_kind (n : Nat) (l : List Callback) :
    (deepcopyFrom n l).map Callback.kind = l.map Callback.kind := by
  induction l generalizing n with
  | nil => rfl
  | cons a as ih => simp [deepcopyFrom, ih]

/-- Copying preserves the number of plateau callbacks. -/
theorem plateauCount_deepcopyFrom (n : Nat) (l : List Callback) :
    plateauCount (deepcopyFrom n l) = plateauCount l := by
  unfold plateauCount
  have h1 : ∀ m : List Callback,
      m.countP isPlateau = (m.map Callback.kind).countP isPlateauKind := by
    intro m
    rw [List.countP_map]
    rfl
  rw [h1, h1, deepcopyFrom_map_kind]

/-- Copying preserves the number of plateau callbacks (`deepcopy` form). -/
theorem plateauCount_deepcopy (l : List Callback) :
    plateauCount (deepcopyCallbacks l) = plateauCount l :=
  plateauCount_deepcopyFrom _ _

/-- The checked list always contains a plateau callback. -/
theorem check_callbacks_has_plateau (callbacks : Option (List Callback)) :
    (_check_callbacks callbacks).any isPlateau = true := by
  cases h : (callbacks.getD []).any isPlateau
  · simp [_check_callbacks, h, isPlateau, isPlateauKind, defaultPlateauKind]
  · simp [_check_callbacks, h]

/-- A list already containing a plateau callback is returned unchanged. -/
theorem check_callbacks_of_has {l : List Callback}
    (h : l.any isPlateau = true) : _check_callbacks (some l) = l := by
  simp [_check_callbacks, h]

/-- The number of plateau callbacks after the check: one more than zero,
otherwise unchanged. -/
theorem plateauCount_check (callbacks : Option (List Callback)) :
    plateauCount (_check_callbacks callbacks) =
      max (plateauCount (callbacks.getD [])) 1 := by
  cases h : (callbacks.getD []).any isPlateau
  · have h0 : plateauCount (callbacks.getD []) = 0 := by
      unfold plateauCount
      rw [List.countP_eq_zero]
      intro a ha hpa
      exact (Bool.not_eq_true _).mpr h (List.any_eq_true.mpr ⟨a, ha, hpa⟩)
    have hres : _check_callbacks callbacks =
        callbacks.getD [] ++
          [⟨freshOid (callbacks.getD []), defaultPlateauKind⟩] := by
      simp [_check_callbacks, h]
    rw [hres]
    unfold plateauCount
    rw [List.countP_append]
    unfold plateauCount at h0
    rw [h0]
    simp [isPlateau, isPlateauKind, defaultPlateauKind, List.countP_cons]
  · have hpos : 0 < plateauCount (callbacks.getD []) := by
      unfold plateauCount
      rw [List.countP_pos_iff]
      exact List.any_eq_true.mp h
    have hres : _check_callbacks callbacks = callbacks.getD [] := by
      simp [_check_callbacks, h]
    rw [hres]
    omega

/-- Fresh copies of `l` have object identities disjoint from every list
whose identities are below `freshOid l`. -/
theorem deepcopy_oids_disjoint {l m : List Callback}
    (hm : ∀ c ∈ m, c.oid < freshOid l) :
    List.Disjoint ((deepcopyCallbacks l).map Callback.oid)
      (m.map Callback.oid) := by
  intro a ha hb
  rcases List.mem_map.mp ha with ⟨c, hc, rfl⟩
  rcases List.mem_map.mp hb with ⟨c2, hc2, he⟩
  have h1 : freshOid l ≤ c.oid := deepcopyFrom_oid_ge hc
  have h2 : c2.oid < freshOid l := hm c2 hc2
  omega

/-! ### Claim theorems -/

/-- C2: for every callbacks value (`None` or any list of callbacks), the
list `_check_callbacks` produces for training contains at least one
`ReduceLROnPlateau` callback, and a list already containing one is
returned exactly as supplied: no additional plateau callback is appended
and the user-supplied one is kept unchanged. -/
theorem C2_check_callbacks_default_policy
    (callbacks : Option (List Callback)) (l : List Callback) :
    (_check_callbacks callbacks).any isPlateau = true ∧
    (l.any isPlateau = true → _check_callbacks (some l) = l) :=
  ⟨check_callbacks_has_plateau callbacks, fun h => check_callbacks_of_has h⟩

/-- Witness for C2, at a concrete one-element list already containing a
plateau callback: it is returned unchanged and still contains one. -/
theorem C2_check_callbacks_default_policy_witness :
    (_check_callbacks
        (some [⟨3, .reduceLROnPlateau "val_loss" 1 10 0⟩])).any isPlateau =
      true ∧
    _check_callbacks (some [⟨3, .reduceLROnPlateau "val_loss" 1 10 0⟩]) =
      [⟨3, .reduceLROnPlateau "val_loss" 1 10 0⟩] :=
  ⟨(C2_check_callbacks_default_policy
      (some [⟨3, .reduceLROnPlateau "val_loss" 1 10 0⟩]) []).1,
   (C2_check_callbacks_default_policy
      (some [⟨3, .reduceLROnPlateau "val_loss" 1 10 0⟩])
      [⟨3, .reduceLROnPlateau "val_loss" 1 10 0⟩]).2 (by decide)⟩

/-- C5: for every input shape and class count, `build_model` takes the
input/output tensor pair from the network collaborator, appends exactly
one final `Dense(n_classes, softmax)` classification layer after the
collaborator's output, and returns the model compiled with the fixed Adam
optimizer, the configured loss and the configured metrics; as a total
function it has no error path of its own. -/
theorem C5_build_model_appends_one_dense (s : ClassifierState)
    (input_shape : List Nat) (n_classes : Nat) :
    (build_model s input_shape n_classes).inputs =
      (build_network s.network input_shape).1 ∧
    (build_model s input_shape n_classes).outputs =
      Tensor.dense n_classes "softmax"
        (build_network s.network input_shape).2 ∧
    denseDepth (build_model s input_shape n_classes).outputs =
      denseDepth (build_network s.network input_shape).2 + 1 ∧
    (build_model s input_shape n_classes).loss = s.loss ∧
    (build_model s input_shape n_classes).optimizer = "Adam" ∧
    (build_model s input_shape n_classes).metrics = s.metrics :=
  ⟨rfl, rfl, rfl, rfl, rfl, rfl⟩

/-- C6: fit transposes `X` with `transpose(0, 2, 1)` — from
(samples, channels, timepoints) to (samples, timepoints, channels), both
in shape and elementwise — sets `input_shape` to the transposed shape with
the sample axis dropped, builds the model from that shape and the derived
class count, and hands the framework's training loop exactly the
configured epoch count and batch size. -/
theorem C6_fit_transpose_and_loop_args (s : ClassifierState) (X : NDArray3)
    (y : List Nat) :
    (_fit s X y).2.x.shape = [X.d0, X.d2, X.d1] ∧
    (∀ i j k, (_fit s X y).2.x.data i j k = X.data i k j) ∧
    (_fit s X y).1.input_shape = some (X.transpose021.shape.drop 1) ∧
    (_fit s X y).1.input_shape = some [X.d2, X.d1] ∧
    (_fit s X y).1.model_ = some (build_model s [X.d2, X.d1] s.n_classes_) ∧
    (_fit s X y).2.epochs = s.n_epochs ∧
    (_fit s X y).2.batch_size = s.batch_size :=
  ⟨rfl, fun _ _ _ => rfl, rfl, rfl, rfl, rfl, rfl⟩

/-- C7: construction fails exactly when the deep-learning framework is
unavailable — the dependency check is the only error path the wrapper
adds; when the framework is available the constructed state is returned
and when it is not, the dependency error is the failure. -/
theorem C7_init_raises_iff_dl_unavailable
    (n_epochs batch_size kernel_size n_filters : Nat)
    (use_residual use_bottleneck : Bool) (bottleneck_size depth : Nat)
    (callbacks : Option (List Callback)) (random_state : Option Int)
    (verbose : Bool) (loss : String) (metrics : Option (List String))
    (dl_available : Bool) :
    (init n_epochs batch_size kernel_size n_filters use_residual
        use_bottleneck bottleneck_size depth callbacks random_state verbose
        loss metrics dl_available).isOk = dl_available ∧
    init n_epochs batch_size kernel_size n_filters use_residual
        use_bottleneck bottleneck_size depth callbacks random_state verbose
        loss metrics true =
      .ok (init_fields n_epochs batch_size kernel_size n_filters
        use_residual use_bottleneck bottleneck_size depth callbacks
        random_state verbose loss metrics) ∧
    init n_epochs batch_size kernel_size n_filters use_residual
        use_bottleneck bottleneck_size depth callbacks random_state verbose
        loss metrics false =
      .error "tensorflow is required but not available" := by
  cases dl_available
  · exact ⟨rfl, rfl, rfl⟩
  · exact ⟨rfl, rfl, rfl⟩

/-- C8: `get_test_params` returns exactly the two-element list of literal
configuration dictionaries `[{n_epochs: 10, batch_size: 4},
{n_epochs: 12, batch_size: 6}]`, in that order, for every
`parameter_set` argument. -/
theorem C8_get_test_params_literals (parameter_set : String) :
    get_test_params parameter_set =
      [{ n_epochs := 10, batch_size := 4 },
       { n_epochs := 12, batch_size := 6 }] :=
  rfl

/-- C9: when the `metrics` constructor argument is falsy (`None` or the
empty list) the instance's `metrics` attribute is `["accuracy"]`;
otherwise it is the argument unchanged. -/
theorem C9_metrics_default (n_epochs batch_size kernel_size n_filters : Nat)
    (use_residual use_bottleneck : Bool) (bottleneck_size depth : Nat)
    (callbacks : Option (List Callback)) (random_state : Option Int)
    (verbose : Bool) (loss : String) (metrics : Option (List String)) :
    (init_fields n_epochs batch_size kernel_size n_filters use_residual
        use_bottleneck bottleneck_size depth callbacks random_state verbose
        loss metrics).metrics =
      if metrics = none ∨ metrics = some [] then ["accuracy"]
      else metrics.getD [] := by
  rcases metrics with _ | l
  · simp [init_fields, pyOrMetrics]
  · cases l with
    | nil => simp [init_fields, pyOrMetrics]
    | cons a as => simp [init_fields, pyOrMetrics]

/-- C1 counterexample: a classifier constructed with two user-supplied
`ReduceLROnPlateau` callbacks hands both of them to a single training
run, so more than one learning-rate-plateau callback is active in that
run. -/
theorem C1_cex_two_plateaus_active :
    ¬ plateauCount ((_fit stateTwoPlateaus X0 [0, 1]).2.callbacks) ≤ 1 := by
  decide

/-- C1 (amended): in every training run the number of active plateau
callbacks is the number of user-supplied ones, or one when the user
supplied none — hence at most one whenever the user supplied at most
one — and a second fit call on the resulting state activates exactly as
many as the first: repeated fit calls never accumulate additional
plateau callbacks. -/
theorem C1_fit_plateau_run_count (s : ClassifierState) (X X2 : NDArray3)
    (y y2 : List Nat) :
    plateauCount ((_fit s X y).2.callbacks) =
      max (plateauCount (s.callbacks.getD [])) 1 ∧
    plateauCount ((_fit ((_fit s X y).1) X2 y2).2.callbacks) =
      plateauCount ((_fit s X y).2.callbacks) := by
  have hrun : ∀ (t : ClassifierState) (A : NDArray3) (b : List Nat),
      plateauCount ((_fit t A b).2.callbacks) =
        max (plateauCount (t.callbacks.getD [])) 1 := by
    intro t A b
    have h : (_fit t A b).2.callbacks =
        deepcopyCallbacks (_check_callbacks t.callbacks) := rfl
    rw [h, plateauCount_deepcopy, plateauCount_check]
  refine ⟨hrun s X y, ?_⟩
  rw [hrun, hrun]
  have hpost : (_fit s X y).1.callbacks = check_callbacks_effect s.callbacks :=
    rfl
  rw [hpost]
  cases hc : s.callbacks with
  | none => rfl
  | some l =>
      have h2 : (check_callbacks_effect (some l)).getD [] =
          _check_callbacks (some l) := rfl
      rw [h2, plateauCount_check]
      have h3 : (some l).getD ([] : List Callback) = l := rfl
      rw [h3, Nat.max_assoc, Nat.max_self]

/-- C3 counterexample: fitting a classifier constructed with a
user-supplied empty callback list (`callbacks=[]`) mutates its
`callbacks` attribute after construction: `_check_callbacks` appends the
default plateau callback to the user's list in place. -/
theorem C3_cex_callbacks_attribute_mutated :
    (_fit stateEmptyCallbacks X0 [0]).1.callbacks ≠
      stateEmptyCallbacks.callbacks := by
  decide

/-- C3 (amended): every configuration field except `callbacks` —
n_epochs, batch_size, kernel_size, n_filters, use_residual,
use_bottleneck, bottleneck_size, depth, random_state, verbose, loss,
metrics — is unchanged by fit, the network collaborator and its copied
hyperparameters are set at construction and never touched again, and the
`callbacks` attribute changes only by the in-place `_check_callbacks`
append of the default plateau callback to a user-supplied list lacking
one. -/
theorem C3_config_immutable_except_callbacks (s : ClassifierState)
    (X : NDArray3) (y : List Nat)
    (n_epochs batch_size kernel_size n_filters : Nat)
    (use_residual use_bottleneck : Bool) (bottleneck_size depth : Nat)
    (callbacks : Option (List Callback)) (random_state : Option Int)
    (verbose : Bool) (loss : String) (metrics : Option (List String)) :
    ((_fit s X y).1.n_epochs = s.n_epochs ∧
     (_fit s X y).1.batch_size = s.batch_size ∧
     (_fit s X y).1.kernel_size = s.kernel_size ∧
     (_fit s X y).1.n_filters = s.n_filters ∧
     (_fit s X y).1.use_residual = s.use_residual ∧
     (_fit s X y).1.use_bottleneck = s.use_bottleneck ∧
     (_fit s X y).1.bottleneck_size = s.bottleneck_size ∧
     (_fit s X y).1.depth = s.depth ∧
     (_fit s X y).1.random_state = s.random_state ∧
     (_fit s X y).1.verbose = s.verbose ∧
     (_fit s X y).1.loss = s.loss ∧
     (_fit s X y).1.metrics = s.metrics ∧
     (_fit s X y).1.network = s.network) ∧
    (_fit s X y).1.callbacks = check_callbacks_effect s.callbacks ∧
    (init_fields n_epochs batch_size kernel_size n_filters use_residual
        use_bottleneck bottleneck_size depth callbacks random_state verbose
        loss metrics).network =
      { n_filters := n_filters, use_residual := use_residual,
        use_bottleneck := use_bottleneck,
        bottleneck_size := bottleneck_size, depth := depth,
        kernel_size := kernel_size, random_state := random_state } :=
  ⟨⟨rfl, rfl, rfl, rfl, rfl, rfl, rfl, rfl, rfl, rfl, rfl, rfl, rfl⟩,
   rfl, rfl⟩

/-- C4 counterexample: fit mutates a fourth instance field besides
`model_`, `history` and `input_shape`: with a user-supplied callback list
containing one non-plateau callback, the `callbacks` attribute afterwards
references a longer list than before. -/
theorem C4_cex_fit_mutates_callbacks :
    (_fit stateOtherCallback X0 [0]).1.callbacks ≠
      stateOtherCallback.callbacks := by
  decide

/-- C4 (amended): the post-fit state is exactly the pre-fit state with
`model_` replaced wholesale, `history` and `input_shape` set, and
`callbacks` updated by the in-place `_check_callbacks` effect — no other
field changes; the one-hot label encoding is recomputed from `y` inside
the call and handed only to the training loop, never stored on the
instance. -/
theorem C4_fit_frame (s : ClassifierState) (X : NDArray3) (y : List Nat) :
    (_fit s X y).1 =
      { s with
          model_ := some (build_model s (X.transpose021.shape.drop 1)
            s.n_classes_)
          history := some (keras_fit (_fit s X y).2)
          input_shape := some (X.transpose021.shape.drop 1)
          callbacks := check_callbacks_effect s.callbacks } ∧
    (_fit s X y).2.y_onehot = convert_y_to_keras s.n_classes_ y :=
  ⟨rfl, rfl⟩

/-- C10: the callback objects handed to the framework's training loop are
a deep copy of the checked callback list — payloads equal, object
identities disjoint from both the pre-fit and the post-fit `callbacks`
attribute — so the callbacks held by the instance are never the objects
the training loop runs and mutates. -/
theorem C10_fit_deepcopies_callbacks (s : ClassifierState) (X : NDArray3)
    (y : List Nat) :
    ((_fit s X y).2.callbacks.map Callback.kind =
      (_check_callbacks s.callbacks).map Callback.kind) ∧
    List.Disjoint ((_fit s X y).2.callbacks.map Callback.oid)
      (((_fit s X y).1.callbacks.getD []).map Callback.oid) ∧
    List.Disjoint ((_fit s X y).2.callbacks.map Callback.oid)
      ((s.callbacks.getD []).map Callback.oid) := by
  have hrun : (_fit s X y).2.callbacks =
      deepcopyCallbacks (_check_callbacks s.callbacks) := rfl
  have hpost : (_fit s X y).1.callbacks = check_callbacks_effect s.callbacks :=
    rfl
  refine ⟨?_, ?_, ?_⟩
  · rw [hrun]
    exact deepcopyFrom_map_kind _ _
  · rw [hrun, hpost]
    cases hc : s.callbacks with
    | none =>
        intro a ha hb
        simp [check_callbacks_effect] at hb
    | some l =>
        exact deepcopy_oids_disjoint (fun c hc2 => oid_lt_freshOid hc2)
  · rw [hrun]
    cases hc : s.callbacks with
    | none =>
        intro a ha hb
        simp at hb
    | some l =>
        apply deepcopy_oids_disjoint
        intro c hcmem
        have hsub : c ∈ _check_callbacks (some l) := by
          cases hany : l.any isPlateau
          · have h4 : _check_callbacks (some l) =
                l ++ [⟨freshOid l, defaultPlateauKind⟩] := by
              simp [_check_callbacks, hany]
            rw [h4]
            exact List.mem_append_left _ hcmem
          · rw [check_callbacks_of_has hany]
            exact hcmem
        exact oid_lt_freshOid hsub

/-- Witness for C10 at a concrete state with one user callback: the
object identity 7 of the first copied callback handed to the loop occurs
neither among the post-fit instance callbacks nor among the pre-fit ones,
and the payloads of the copies match the checked list. -/
theorem C10_fit_deepcopies_callbacks_witness :
    ((_fit stateOtherCallback X0 [0]).2.callbacks.map Callback.kind =
      (_check_callbacks stateOtherCallback.callbacks).map Callback.kind) ∧
    ¬ (7 : Nat) ∈
        (((_fit stateOtherCallback X0 [0]).1.callbacks.getD []).map
          Callback.oid) ∧
    ¬ (7 : Nat) ∈ ((stateOtherCallback.callbacks.getD []).map Callback.oid) :=
  ⟨(C10_fit_deepcopies_callbacks stateOtherCallback X0 [0]).1,
   fun hb =>
     (C10_fit_deepcopies_callbacks stateOtherCallback X0 [0]).2.1
       (by decide) hb,
   fun hb =>
     (C10_fit_deepcopies_callbacks stateOtherCallback X0 [0]).2.2
       (by decide) hb⟩
